import Mathlib

/-
  Verification of the Orbit WhatsApp Chatbot conversation workflow engine.

  Shallow embedding of the Python sources:
    app/schemas/chat.py            (inbound message data model)
    app/ai/schemas/workflow_states.py  (ChatState)
    app/ai/nodes/shared.py         (download_file_from_facebook)
    app/ai/nodes/handle_text_node.py
    app/ai/nodes/handle_image_node.py
    app/ai/nodes/handle_audio_node.py
    app/ai/nodes/chat_processor_node.py (body fully commented out in app/)
    app/ai/nodes/send_whatsapp_message_node.py
    app/ai/workflows/chat_workflow.py  (graph wiring and router)
    app/ai/services/shared_pool_service.py
    app/ai/services/checkpointer_service.py
    app/core/config.py             (Settings)
    temp.py                        (prototype: the working chat_processor_node)

  External collaborators (HTTP requests, the OpenAI model, base64 from the
  standard library, the Whisper transcription call) are modelled as oracle
  values/functions carried in small environment structures; the local file
  system is modelled as the list of file paths currently on disk.
-/

deriving instance DecidableEq for Except

namespace Orbit

/-! ## Data model: app/schemas/chat.py -/

/-- Mirrors `class Text(BaseModel): body: str`. -/
structure ChatText where
  body : String
deriving DecidableEq

/-- Mirrors `class Image(BaseModel)`: optional caption, mime_type, sha256, id. -/
structure ChatImage where
  caption : Option String
  mime_type : String
  sha256 : String
  id : String
deriving DecidableEq

/-- Mirrors `class Audio(BaseModel)`: mime_type, sha256, id, voice. -/
structure ChatAudio where
  mime_type : String
  sha256 : String
  id : String
  voice : Bool
deriving DecidableEq

/-- Mirrors `class Message(BaseModel)`: the inbound WhatsApp message descriptor. -/
structure ChatMessage where
  from_ : String
  id : String
  timestamp : String
  text : Option ChatText
  image : Option ChatImage
  audio : Option ChatAudio
  type : String
deriving DecidableEq

/-! ## LangChain message values

`HumanMessage` content is either a plain string (text / transcribed audio) or a
list of multimodal fragments (image node). `SystemMessage` and `AIMessage`
carry plain strings. -/

/-- One entry of a multimodal content list: a text part or an image_url part. -/
inductive Fragment where
  | text (t : String)
  | imageUrl (url : String)
deriving DecidableEq

/-- Content of a HumanMessage: a plain string or a list of fragments. -/
inductive MContent where
  | str (s : String)
  | parts (ps : List Fragment)
deriving DecidableEq

/-- A LangChain message: human, assistant, or system. -/
inductive LMessage where
  | human (content : MContent)
  | ai (content : String)
  | system (content : String)
deriving DecidableEq

/-- Mirrors `ChatState` of app/ai/schemas/workflow_states.py (same fields as
`GraphState` in temp.py): the messages list under the add_messages reducer,
the pending inbound message, and the latest answer. -/
structure ChatState where
  messages : List LMessage
  current_message : ChatMessage
  answer : String
deriving DecidableEq

/-! ## Settings: app/core/config.py -/

/-- The configuration fields the workflow engine reads (app/core/config.py).
`DATABASE_URL` is `Optional[str]`; Python truthiness also treats `""` as
absent. -/
structure Settings where
  DATABASE_URL : Option String
  MAX_MESSAGES_IN_CONTEXT : Nat
deriving DecidableEq

/-- Default of `MAX_MESSAGES_IN_CONTEXT` in config.py: `int(os.getenv("MAX_MESSAGES_IN_CONTEXT", "10"))`. -/
def defaultMaxMessagesInContext : Nat := 10

/-- Python truthiness of the `DATABASE_URL` setting: `if not settings.DATABASE_URL`
is taken when the value is `None` or the empty string. -/
def dbUrlTruthy : Option String → Bool
  | none => false
  | some s => s ≠ ""

/-! ## app/ai/nodes/shared.py : download_file_from_facebook -/

/-- Oracle for the two HTTP GET requests made by `download_file_from_facebook`:
the status of the metadata request, the status of the content request, and the
downloaded bytes. -/
structure FbEnv where
  status1 : Nat
  status2 : Nat
  fileBytes : List Nat

/-- Split a character list at every occurrence of the separator character,
mirroring Python `str.split(sep)` for a one-character separator (structural
recursion so that concrete instances reduce in the kernel). -/
def splitOnChar (c : Char) : List Char → List (List Char)
  | [] => [[]]
  | x :: xs =>
      match splitOnChar c xs with
      | [] => if x = c then [[], []] else [[x]]
      | y :: ys => if x = c then [] :: y :: ys else (x :: y) :: ys

/-- Mirrors `mime_type.split("/")[-1].split(";")[0]` in shared.py. -/
def fileExtension (mime_type : String) : String :=
  String.mk ((splitOnChar ';' ((splitOnChar '/' mime_type.data).getLastD [])).headD [])

/-- Shallow embedding of `download_file_from_facebook(file_id, file_type, mime_type)`
from app/ai/nodes/shared.py. The first component is the function result: the
declared Python return type is `str | None`, hence `Option String` inside
`Except` (errors model the `raise ValueError(...)` statements). The second
component is the file system after the call: when both requests return 200 the
file is written to `{file_id}.{ext}` before the file-type check, so the write
also happens on the unsupported-file-type error path. -/
def download_file_from_facebook (env : FbEnv) (fs : List String)
    (file_id file_type mime_type : String) :
    Except String (Option String) × List String :=
  if env.status1 = 200 then
    if env.status2 = 200 then
      let file_path := file_id ++ "." ++ fileExtension mime_type
      let fs1 := file_path :: fs
      if file_type = "image" ∨ file_type = "audio" then
        (Except.ok (some file_path), fs1)
      else
        -- falls through both `return` statements and reaches
        -- `raise ValueError(f"Failed to download file. Status code: {response.status_code}")`
        -- with the (second) response still having status 200
        (Except.error "Failed to download file. Status code: 200", fs1)
    else
      (Except.error ("Failed to download file. Status code: " ++ toString env.status2), fs)
  else
    (Except.error ("Failed to retrieve download URL. Status code: " ++ toString env.status1), fs)

/-! ## app/ai/nodes/handle_image_node.py -/

/-- Environment of the image node: the Facebook download oracle plus the
standard-library `base64.b64encode(...).decode("utf-8")` function, treated as
an external collaborator. -/
structure ImageEnv where
  fb : FbEnv
  b64encode : List Nat → String

/-- Shallow embedding of `get_base64_image(image)`: download, base64-encode the
bytes read back from disk, build the data URI, then `os.remove` the file. The
`os.remove` is wrapped in try/except in the source, so a missing file is only
logged; `List.erase` models remove-if-present. The `Except.ok none` branch of
the download is unreachable for the literal file type "image" but corresponds
to Python passing `None` to `open`. -/
def get_base64_image (env : ImageEnv) (fs : List String) (image : ChatImage) :
    Except String String × List String :=
  match download_file_from_facebook env.fb fs image.id "image" image.mime_type with
  | (Except.error e, fs1) => (Except.error e, fs1)
  | (Except.ok none, fs1) => (Except.error "TypeError: cannot open None", fs1)
  | (Except.ok (some image_path), fs1) =>
      let base64_str := env.b64encode env.fb.fileBytes
      let base64_image := "data:" ++ image.mime_type ++ ";base64," ++ base64_str
      (Except.ok base64_image, fs1.erase image_path)

/-- Python truthiness of `image_data.caption` (an `Optional[str]`): falsy when
`None` or `""`. -/
def captionTruthy : Option String → Bool
  | none => false
  | some c => c ≠ ""

/-- Shallow embedding of `handle_image_node(state)`: fetch the base64 image
(an exception there propagates, nothing is appended), then build the content
list — a text fragment first when the caption is truthy, then the image_url
fragment when the data URI is truthy — and append one HumanMessage. When
`state.current_message.image` is `None`, Python raises AttributeError inside
the download helper on `image.id`; we surface that error at entry. -/
def handle_image_node (env : ImageEnv) (fs : List String) (state : ChatState) :
    Except String ChatState × List String :=
  match state.current_message.image with
  | none => (Except.error "AttributeError: image is None", fs)
  | some image_data =>
      match get_base64_image env fs image_data with
      | (Except.error e, fs1) => (Except.error e, fs1)
      | (Except.ok image_base64, fs1) =>
          let image_messages : List Fragment :=
            (if captionTruthy image_data.caption then
              [Fragment.text (image_data.caption.getD "")] else []) ++
            (if image_base64 ≠ "" then [Fragment.imageUrl image_base64] else [])
          (Except.ok { state with
              messages := state.messages ++ [LMessage.human (MContent.parts image_messages)] },
           fs1)

/-! ## app/ai/nodes/handle_audio_node.py -/

/-- Environment of the audio node: the Facebook download oracle plus the
outcome of the OpenAI Whisper call inside `transcribe_audio_file`
(`Except.error` models the underlying exception). -/
structure AudioEnv where
  fb : FbEnv
  transcription : Except String String

/-- Shallow embedding of `transcribe_audio_file(audio_file)`: the
`if not audio_file` branch never fires (the argument is an open file object,
always truthy); any exception from the OpenAI client is re-raised as
`ValueError("Error transcribing audio")`. -/
def transcribe_audio_file (env : AudioEnv) : Except String String :=
  match env.transcription with
  | Except.ok t => Except.ok t
  | Except.error _ => Except.error "Error transcribing audio"

/-- Shallow embedding of `transcribe_audio(audio)`: download, transcribe inside
`with open(file_path)`, then `os.remove(file_path)` guarded by try/except.
The `os.remove` statement sits AFTER the `with` block and not in a `finally`,
so when `transcribe_audio_file` raises, the exception propagates and the
downloaded file is never deleted — the second component keeps the path. -/
def transcribe_audio (env : AudioEnv) (fs : List String) (audio : ChatAudio) :
    Except String String × List String :=
  match download_file_from_facebook env.fb fs audio.id "audio" audio.mime_type with
  | (Except.error e, fs1) => (Except.error e, fs1)
  | (Except.ok none, fs1) => (Except.error "TypeError: cannot open None", fs1)
  | (Except.ok (some file_path), fs1) =>
      match transcribe_audio_file env with
      | Except.error e => (Except.error e, fs1)
      | Except.ok transcription => (Except.ok transcription, fs1.erase file_path)

/-- Shallow embedding of `handle_audio_node(state)`. The call to
`transcribe_audio` is NOT wrapped in try/except, so its `ValueError`
propagates out of the node. On success the `isinstance(..., str)` test is
always true and the transcription is appended as a HumanMessage; the `else`
branch of the source (which would log and build an
"Error transcribing audio message" string without appending it) is
unreachable dead code. -/
def handle_audio_node (env : AudioEnv) (fs : List String) (state : ChatState) :
    Except String ChatState × List String :=
  match state.current_message.audio with
  | none => (Except.error "AttributeError: audio is None", fs)
  | some audio =>
      match transcribe_audio env fs audio with
      | (Except.error e, fs1) => (Except.error e, fs1)
      | (Except.ok transcribed, fs1) =>
          (Except.ok { state with
              messages := state.messages ++ [LMessage.human (MContent.str transcribed)] },
           fs1)

/-! ## app/ai/nodes/handle_text_node.py -/

/-- Shallow embedding of `handle_text_node(state)`: append the text body as a
HumanMessage. A `None` text field would raise AttributeError on `.body`. -/
def handle_text_node (state : ChatState) : Except String ChatState :=
  match state.current_message.text with
  | none => Except.error "AttributeError: text is None"
  | some t =>
      Except.ok { state with
        messages := state.messages ++ [LMessage.human (MContent.str t.body)] }

/-! ## Response generator

Two versions exist in the repository:
  * temp.py `chat_processor_node` — the working prototype: prepends the fixed
    system message to the whole history, invokes the model, and returns
    `{"messages": [response], "answer": response.content}` which the
    add_messages reducer appends to the stored history;
  * app/ai/nodes/chat_processor_node.py `chat_processor_node` — the function
    wired into the app workflow, whose entire body is commented out, so it
    returns `None`; LangGraph treats a `None` node return as an empty state
    update. -/

/-- The fixed system instruction string of temp.py `chat_processor_node`. -/
def chat_system_prompt : String :=
  "You are a friendly and helpful WhatsApp assistant. " ++
  "Users may send you messages in the form of text, images, or audio. " ++
  "Your job is to understand the input, provide clear and accurate responses, " ++
  "and communicate naturally in a conversational, WhatsApp-style manner. " ++
  "Always be polite, approachable, and supportive while assisting the user."

/-- Oracle for `ChatOpenAI(model="gpt-4o-mini").invoke(messages)`: maps the
message list actually submitted to the model to the reply content. -/
structure LlmEnv where
  invoke : List LMessage → String

/-- Shallow embedding of temp.py `chat_processor_node(state)`. First component:
the state after LangGraph merges the returned update
`{"messages": [response], "answer": response.content}` (add_messages appends
the reply to the untouched stored history). Second component: the exact
message list passed to `llm.invoke` — the fixed system message followed by the
COMPLETE `state["messages"]`; no context-window truncation is performed and
`settings.MAX_MESSAGES_IN_CONTEXT` is never read. -/
def chat_processor_node (env : LlmEnv) (state : ChatState) : ChatState × List LMessage :=
  let system_message := [LMessage.system chat_system_prompt]
  let messages := system_message ++ state.messages
  let response := env.invoke messages
  ({ state with messages := state.messages ++ [LMessage.ai response], answer := response },
   messages)

/-- Shallow embedding of app/ai/nodes/chat_processor_node.py
`chat_processor_node(state)`: the whole function body is commented out, so the
function returns `None` and LangGraph applies no state update. -/
def chat_processor_node_app (state : ChatState) : ChatState := state

/-! ## app/ai/nodes/send_whatsapp_message_node.py -/

/-- Oracle for the outbound WhatsApp Graph API POST: whether
`requests.post(...)` yields a truthy (2xx) response. -/
structure SendEnv where
  sendOk : Bool

/-- Shallow embedding of `send_whatsapp_message_node(state)`: reads
`state.messages[-1].content` (IndexError on an empty list) and the recipient
from `current_message.from_`, posts the message, raises
`Exception("Failed to send message")` on failure, and returns the state
unchanged on success. -/
def send_whatsapp_message_node (env : SendEnv) (state : ChatState) :
    Except String ChatState :=
  match state.messages.getLast? with
  | none => Except.error "IndexError: messages is empty"
  | some _ =>
      if env.sendOk then Except.ok state else Except.error "Failed to send message"

/-! ## app/ai/workflows/chat_workflow.py : router and graph -/

/-- Shallow embedding of the router closure `route_by_message_type(state)`
defined inside `create_chat_workflow`: returns the raw type tag. -/
def route_by_message_type (state : ChatState) : String :=
  state.current_message.type

/-- The three handler nodes reachable from the conditional edge. -/
inductive HandlerNode where
  | handle_image
  | handle_audio
  | handle_text
deriving DecidableEq

/-- The conditional-edge mapping passed to `add_conditional_edges`:
`{"image": "handle_image", "audio": "handle_audio", "text": "handle_text"}`.
Any other tag has no target and makes LangGraph abort the run. -/
def conditionalEdgeMap (tag : String) : Option HandlerNode :=
  if tag = "image" then some HandlerNode.handle_image
  else if tag = "audio" then some HandlerNode.handle_audio
  else if tag = "text" then some HandlerNode.handle_text
  else none

/-- The graph node name of a handler. -/
def handlerName : HandlerNode → String
  | HandlerNode.handle_image => "handle_image"
  | HandlerNode.handle_audio => "handle_audio"
  | HandlerNode.handle_text => "handle_text"

/-- All effect oracles a full run of the app workflow may consult. -/
structure WorkflowEnv where
  image : ImageEnv
  audio : AudioEnv
  send : SendEnv

/-- Outcome of one run of the compiled app workflow: the run result, the list
of graph nodes that executed (in order), the messages list of the last state
committed to the checkpointer before the run ended, and the final file
system. -/
structure RunResult where
  result : Except String ChatState
  trace : List String
  persisted : List LMessage
  fs : List String

/-- Shallow embedding of one invocation of the workflow compiled by
`create_chat_workflow` (app/ai/workflows/chat_workflow.py):
START → "start" (identity lambda) → conditional edge by message type →
handler → "chat_processor" → "send_message" → END. An unknown tag fails the
run at the conditional edge, before any handler, generator, or dispatcher node
executes. Each completed super-step commits its state to the checkpointer;
`persisted` holds the messages of the last committed state. -/
def run_chat_workflow (env : WorkflowEnv) (fs : List String) (input : ChatState) :
    RunResult :=
  let st0 := input
  match conditionalEdgeMap (route_by_message_type st0) with
  | none =>
      { result := Except.error "UnsupportedMessageType",
        trace := ["start"], persisted := st0.messages, fs := fs }
  | some handler =>
      let step : Except String ChatState × List String :=
        match handler with
        | HandlerNode.handle_text => (handle_text_node st0, fs)
        | HandlerNode.handle_image => handle_image_node env.image fs st0
        | HandlerNode.handle_audio => handle_audio_node env.audio fs st0
      match step with
      | (Except.error e, fs1) =>
          { result := Except.error e, trace := ["start", handlerName handler],
            persisted := st0.messages, fs := fs1 }
      | (Except.ok st1, fs1) =>
          let st2 := chat_processor_node_app st1
          match send_whatsapp_message_node env.send st2 with
          | Except.error e =>
              { result := Except.error e,
                trace := ["start", handlerName handler, "chat_processor", "send_message"],
                persisted := st2.messages, fs := fs1 }
          | Except.ok st3 =>
              { result := Except.ok st3,
                trace := ["start", handlerName handler, "chat_processor", "send_message"],
                persisted := st3.messages, fs := fs1 }

/-! ## app/ai/services/shared_pool_service.py -/

/-- The module-level mutable state of shared_pool_service.py: the global
`_shared_async_pool` (pool instances are identified by the construction
counter, so distinct constructions yield distinct identities), plus
instrumentation counting how many `AsyncConnectionPool(...)` constructions and
`pool.open()` calls ever happened. -/
structure PoolState where
  shared_async_pool : Option Nat
  constructed : Nat
  opened : Nat
deriving DecidableEq

/-- The state at module import time: `_shared_async_pool = None`, nothing
constructed or opened yet. -/
def initialPoolState : PoolState :=
  { shared_async_pool := none, constructed := 0, opened := 0 }

/-- Shallow embedding of `get_shared_async_pool()`: when the global is `None`,
construct a new `AsyncConnectionPool` (with `open=False`), open it, and store
it in the global; otherwise return the memoized instance untouched. -/
def get_shared_async_pool (s : PoolState) : Nat × PoolState :=
  match s.shared_async_pool with
  | some pool => (pool, s)
  | none =>
      let pool := s.constructed
      (pool,
       { shared_async_pool := some pool,
         constructed := s.constructed + 1,
         opened := s.opened + 1 })

/-- A sequence of `n` calls to `get_shared_async_pool()` (no intervening
reset): returns the pool instance each call received and the final module
state. -/
def run_pool_calls : Nat → PoolState → List Nat × PoolState
  | 0, s => ([], s)
  | n + 1, s =>
      let (p, s1) := get_shared_async_pool s
      let (ps, s2) := run_pool_calls n s1
      (p :: ps, s2)

/-- Shallow embedding of `reset_shared_pool()`: closes the pool if present and
clears the global. -/
def reset_shared_pool (s : PoolState) : PoolState :=
  { s with shared_async_pool := none }

/-! ## app/ai/services/checkpointer_service.py -/

/-- The checkpointer instances `create_checkpointer` can return: a
Postgres-backed saver holding a shared pool, or the in-memory `MemorySaver`. -/
inductive Checkpointer where
  | postgres (poolId : Nat)
  | memory
deriving DecidableEq

/-- Failure oracles of `_create_async_postgres_checkpointer`: whether
obtaining the shared pool (or constructing `AsyncPostgresSaver`) raises, and
the outcome of the `checkpointer.setup()` call bounded by the 30s
`asyncio.wait_for` (an error models both a setup exception and the timeout;
either way it is caught and only logged). -/
structure CkptEnv where
  pool_creation_fails : Bool
  setup_result : Except String Unit

/-- Shallow embedding of `_create_async_postgres_checkpointer()` acting on the
singleton's `_postgres_available` field and the shared-pool module state.
When `DATABASE_URL` is falsy the function returns `None` EARLY, without
touching `_postgres_available`. When pool acquisition raises, the outer
`except` sets the flag to `False` and returns `None`. Otherwise the saver is
built on the shared pool; `setup()` failures and timeouts are swallowed and
the flag is set to `True`. -/
def create_async_postgres_checkpointer (env : CkptEnv) (settings : Settings)
    (postgres_available : Option Bool) (ps : PoolState) :
    Option Checkpointer × Option Bool × PoolState :=
  if dbUrlTruthy settings.DATABASE_URL = false then
    (none, postgres_available, ps)
  else if env.pool_creation_fails then
    (none, some false, ps)
  else
    let (pool, ps1) := get_shared_async_pool ps
    (some (Checkpointer.postgres pool), some true, ps1)

/-- Shallow embedding of `create_checkpointer(async_mode=True)`: try the
Postgres checkpointer first; when that yields `None`, fall back to
`MemorySaver()`. The function is total — no exception reaches the caller on
the fallback path. -/
def create_checkpointer (env : CkptEnv) (settings : Settings)
    (postgres_available : Option Bool) (ps : PoolState) :
    Checkpointer × Option Bool × PoolState :=
  match create_async_postgres_checkpointer env settings postgres_available ps with
  | (none, avail, ps1) => (Checkpointer.memory, avail, ps1)
  | (some c, avail, ps1) => (c, avail, ps1)

/-- Shallow embedding of `is_postgres_available()`: returns the raw
`_postgres_available` field — `True` / `False` / `None` (not tested yet). -/
def is_postgres_available (postgres_available : Option Bool) : Option Bool :=
  postgres_available

/-! ## Thread deletion: `delete_postgres_checkpointer` -/

/-- The three LangGraph Postgres tables, each row keyed by its `thread_id`
(first component) with an abstract payload (second component). -/
structure CheckpointDB where
  checkpoint_writes : List (String × Nat)
  checkpoint_blobs : List (String × Nat)
  checkpoints : List (String × Nat)
deriving DecidableEq

/-- The three `DELETE FROM ... WHERE thread_id = %s` statements executed on one
pooled connection. -/
def delete_thread_rows (db : CheckpointDB) (thread_id : String) : CheckpointDB :=
  { checkpoint_writes := db.checkpoint_writes.filter (fun r => r.1 != thread_id),
    checkpoint_blobs := db.checkpoint_blobs.filter (fun r => r.1 != thread_id),
    checkpoints := db.checkpoints.filter (fun r => r.1 != thread_id) }

/-- Shallow embedding of `delete_postgres_checkpointer(thread_id)`: when
`DATABASE_URL` is falsy, return early (MemorySaver has nothing persistent to
clear); any exception while acquiring the connection or executing the deletes
is caught by the enclosing try/except and only logged (`connection_fails`
models it); otherwise the three scoped deletes run. The function is total:
nothing is raised to the caller. -/
def delete_postgres_checkpointer (settings : Settings) (connection_fails : Bool)
    (db : CheckpointDB) (thread_id : String) : CheckpointDB :=
  if dbUrlTruthy settings.DATABASE_URL = false then
    db
  else if connection_fails then
    db
  else
    delete_thread_rows db thread_id

/-! ## Sample concrete inputs used by counterexamples and witnesses -/

/-- A plain inbound text message (§8 scenario sender and body). -/
def sampleTextMessage : ChatMessage :=
  { from_ := "15550001", id := "wamid.001", timestamp := "1756631116",
    text := some { body := "Hello" }, image := none, audio := none, type := "text" }

/-- A sample inbound audio descriptor (media id 123, mime audio/ogg). -/
def sampleAudio : ChatAudio :=
  { mime_type := "audio/ogg", sha256 := "h1", id := "123", voice := true }

/-- An inbound audio message wrapping `sampleAudio`. -/
def sampleAudioMessage : ChatMessage :=
  { from_ := "15550001", id := "wamid.002", timestamp := "1756631117",
    text := none, image := none, audio := some sampleAudio, type := "audio" }

/-- An inbound message with the unsupported tag "video" (§8 scenario). -/
def sampleVideoMessage : ChatMessage :=
  { from_ := "15550001", id := "wamid.003", timestamp := "1756631118",
    text := none, image := none, audio := none, type := "video" }

/-- A Facebook-download oracle where both requests succeed. -/
def okFb : FbEnv := { status1 := 200, status2 := 200, fileBytes := [65, 66, 67] }

/-- An image-node environment with successful download and a fixed encoder. -/
def okImageEnv : ImageEnv := { fb := okFb, b64encode := fun _ => "QUJD" }

/-- An audio-node environment where download and transcription succeed. -/
def okAudioEnv : AudioEnv := { fb := okFb, transcription := Except.ok "voice note text" }

/-- A workflow environment where every external call succeeds. -/
def sampleWorkflowEnv : WorkflowEnv :=
  { image := okImageEnv, audio := okAudioEnv, send := { sendOk := true } }

/-- A Facebook-download oracle whose first (metadata) request fails with 404. -/
def badFb : FbEnv := { status1 := 404, status2 := 200, fileBytes := [] }

/-- An audio environment where the byte download fails (first request 404). -/
def badDownloadAudioEnv : AudioEnv := { fb := badFb, transcription := Except.ok "hi" }

/-- An audio environment where the download succeeds and the Whisper call raises. -/
def badTranscribeAudioEnv : AudioEnv := { fb := okFb, transcription := Except.error "api down" }

/-- A workflow environment whose audio byte download fails. -/
def badAudioWorkflowEnv : WorkflowEnv :=
  { image := okImageEnv, audio := badDownloadAudioEnv, send := { sendOk := true } }

/-- A history of 11 distinct human messages (one more than the default
`MAX_MESSAGES_IN_CONTEXT` of 10). -/
def elevenMessages : List LMessage :=
  (List.range 11).map (fun i => LMessage.human (MContent.str (toString i)))

/-- A chat state whose stored history already holds 11 messages. -/
def c1State : ChatState :=
  { messages := elevenMessages, current_message := sampleTextMessage, answer := "" }

/-- A model oracle answering a fixed reply. -/
def fixedReplyLlm : LlmEnv := { invoke := fun _ => "Hi there!" }

/-- Settings with no durable connection string and the default context size. -/
def noDbSettings : Settings := { DATABASE_URL := none, MAX_MESSAGES_IN_CONTEXT := 10 }

/-- A checkpointer environment in which pool acquisition and setup succeed. -/
def okCkptEnv : CkptEnv := { pool_creation_fails := false, setup_result := Except.ok () }

/-- An inbound image whose caption field is present but the empty string. -/
def emptyCaptionImage : ChatImage :=
  { caption := some "", mime_type := "image/jpeg", sha256 := "s256", id := "777" }

/-- An inbound image message wrapping `emptyCaptionImage`. -/
def emptyCaptionMessage : ChatMessage :=
  { from_ := "15550001", id := "wamid.004", timestamp := "1756631119",
    text := none, image := some emptyCaptionImage, audio := none, type := "image" }

/-- Chat state carrying the empty-caption image message. -/
def emptyCaptionState : ChatState :=
  { messages := [], current_message := emptyCaptionMessage, answer := "" }

/-- The inbound image of the temp.py example run, with a non-empty caption. -/
def chairImage : ChatImage :=
  { caption := some "Look at this chair", mime_type := "image/jpeg",
    sha256 := "k94", id := "2498909817131317" }

/-- An inbound image message wrapping `chairImage`. -/
def chairMessage : ChatMessage :=
  { from_ := "923034835942", id := "wamid.005", timestamp := "1756631116",
    text := none, image := some chairImage, audio := none, type := "image" }

/-- Chat state carrying the chair image message. -/
def chairState : ChatState :=
  { messages := [], current_message := chairMessage, answer := "" }

/-! ## Theorems -/

/-- C10: `download_file_from_facebook` never returns `None` despite its
declared `str | None` return type: every call either returns the saved local
file path — exactly when both HTTP requests succeed and the file type is
"image" or "audio" — or raises `ValueError`; for any other file type it raises
even when both requests succeed, after having already written the file to
disk. -/
theorem C10_download_never_none (env : FbEnv) (fs : List String)
    (file_id file_type mime_type : String) :
    ((download_file_from_facebook env fs file_id file_type mime_type).1 ≠
        Except.ok none) ∧
    ((download_file_from_facebook env fs file_id file_type mime_type).1 =
        Except.ok (some (file_id ++ "." ++ fileExtension mime_type)) ↔
      env.status1 = 200 ∧ env.status2 = 200 ∧
        (file_type = "image" ∨ file_type = "audio")) ∧
    ((∃ e, (download_file_from_facebook env fs file_id file_type mime_type).1 =
        Except.error e) ↔
      ¬(env.status1 = 200 ∧ env.status2 = 200 ∧
        (file_type = "image" ∨ file_type = "audio"))) ∧
    (env.status1 = 200 → env.status2 = 200 →
      ¬(file_type = "image" ∨ file_type = "audio") →
      (file_id ++ "." ++ fileExtension mime_type) ∈
        (download_file_from_facebook env fs file_id file_type mime_type).2) := by
  unfold download_file_from_facebook
  by_cases h1 : env.status1 = 200 <;>
    by_cases h2 : env.status2 = 200 <;>
      by_cases h3 : file_type = "image" ∨ file_type = "audio" <;>
        simp_all

/-- Witness for C10 at a concrete input: both requests succeed for file type
"video", so the call raises after writing `99.mp4` to disk. -/
theorem C10_download_never_none_witness :
    ("99" ++ "." ++ fileExtension "video/mp4") ∈
      (download_file_from_facebook { status1 := 200, status2 := 200, fileBytes := [7] }
        [] "99" "video" "video/mp4").2 :=
  (C10_download_never_none { status1 := 200, status2 := 200, fileBytes := [7] }
    [] "99" "video" "video/mp4").2.2.2 rfl rfl (by decide)

/-- C7 (code_bug evidence): the downloaded media file is NOT always deleted on
failure paths. In `transcribe_audio` the `os.remove(file_path)` sits after the
`with` block instead of in a `finally`: at the concrete input where the
download of audio id 123 succeeds (file `123.ogg` written) and the Whisper
transcription raises, the exception propagates and `123.ogg` is left on disk;
on the success path at the same input the file is deleted as intended. -/
theorem C7_audio_file_leak :
    (transcribe_audio badTranscribeAudioEnv [] sampleAudio).1 =
        Except.error "Error transcribing audio" ∧
    (transcribe_audio badTranscribeAudioEnv [] sampleAudio).2 = ["123.ogg"] ∧
    (handle_audio_node badTranscribeAudioEnv []
        { messages := [], current_message := sampleAudioMessage, answer := "" }).2 =
      ["123.ogg"] ∧
    (transcribe_audio okAudioEnv [] sampleAudio).2 = [] := by
  refine ⟨by decide, by decide, by decide, by decide⟩

/-- C2 (code_bug evidence): `handle_audio_node` does not recover from byte
retrieval or transcription failures. At a concrete input where the first
Facebook request returns 404, the `ValueError` raised by
`download_file_from_facebook` propagates out of the node; at a concrete input
where the download succeeds and transcription raises, the ValueError from
`transcribe_audio` propagates as well. In both cases no state is returned and
no synthetic "Error transcribing audio message" is appended (that branch of
the source is unreachable dead code). -/
theorem C2_audio_error_propagates :
    (handle_audio_node badDownloadAudioEnv []
        { messages := [], current_message := sampleAudioMessage, answer := "" }).1 =
      Except.error "Failed to retrieve download URL. Status code: 404" ∧
    (handle_audio_node badTranscribeAudioEnv []
        { messages := [], current_message := sampleAudioMessage, answer := "" }).1 =
      Except.error "Error transcribing audio" ∧
    (run_chat_workflow badAudioWorkflowEnv []
        { messages := [], current_message := sampleAudioMessage, answer := "" }).result =
      Except.error "Failed to retrieve download URL. Status code: 404" := by
  refine ⟨by decide, by decide, by decide⟩

/-- C1 counterexample: with the default `MAX_MESSAGES_IN_CONTEXT = 10` and a
stored history of `M = 11` messages, the model invocation of temp.py's
`chat_processor_node` receives 12 messages (the fixed system message followed
by ALL 11 history messages), not the claimed `N + 1 = 11`: no truncation to
the `N` most recent messages ever happens. -/
theorem C1_no_truncation_counterexample :
    c1State.messages.length = 11 ∧
    defaultMaxMessagesInContext < c1State.messages.length ∧
    (chat_processor_node fixedReplyLlm c1State).2.length = 12 ∧
    (chat_processor_node fixedReplyLlm c1State).2.length ≠
      defaultMaxMessagesInContext + 1 := by
  refine ⟨by decide, by decide, by decide, by decide⟩

/-- C1 amended: whenever the history given to `chat_processor_node` has
`M > MAX_MESSAGES_IN_CONTEXT` messages, the model invocation receives the
fixed system instruction message followed by ALL `M` history messages
(`M + 1` in total — the configured maximum is never applied), and the stored
history keeps all `M` messages unmutated, with the model reply appended after
them. -/
theorem C1_full_history_sent (env : LlmEnv) (settings : Settings) (state : ChatState)
    (h : settings.MAX_MESSAGES_IN_CONTEXT < state.messages.length) :
    (chat_processor_node env state).2 =
      LMessage.system chat_system_prompt :: state.messages ∧
    (chat_processor_node env state).2.length = state.messages.length + 1 ∧
    (chat_processor_node env state).1.messages =
      state.messages ++
        [LMessage.ai (env.invoke (LMessage.system chat_system_prompt :: state.messages))] ∧
    (chat_processor_node env state).1.messages.take state.messages.length =
      state.messages := by
  refine ⟨rfl, by simp [chat_processor_node], rfl, ?_⟩
  exact List.take_left state.messages
    [LMessage.ai (env.invoke (LMessage.system chat_system_prompt :: state.messages))]

/-- Witness for C1's amended theorem at the concrete 11-message history. -/
theorem C1_full_history_sent_witness :
    (chat_processor_node fixedReplyLlm c1State).2 =
      LMessage.system chat_system_prompt :: c1State.messages :=
  (C1_full_history_sent fixedReplyLlm noDbSettings c1State (by decide)).1

/-- C3 counterexample: with `DATABASE_URL` absent and a fresh service
(`_postgres_available = None`), `create_checkpointer` does return the
memory-backed `MemorySaver` without raising, but `is_postgres_available()`
afterwards reports `None` (unknown), NOT `False`: the early
`return None` taken when `DATABASE_URL` is missing never writes the
availability flag. -/
theorem C3_reports_unknown_counterexample :
    (create_checkpointer okCkptEnv noDbSettings none initialPoolState).1 =
      Checkpointer.memory ∧
    is_postgres_available
      (create_checkpointer okCkptEnv noDbSettings none initialPoolState).2.1 = none ∧
    is_postgres_available
      (create_checkpointer okCkptEnv noDbSettings none initialPoolState).2.1 ≠
      some false := by
  refine ⟨by decide, by decide, by decide⟩

/-- C3 amended: when the durable connection string is absent (falsy),
`create_checkpointer` returns the memory-backed store without raising any
exception, leaves the shared-pool state untouched, and leaves
`_postgres_available` at its previous value — so a fresh service still reports
unknown (`None`), not `false`. -/
theorem C3_memory_fallback (env : CkptEnv) (settings : Settings)
    (avail : Option Bool) (ps : PoolState)
    (h : dbUrlTruthy settings.DATABASE_URL = false) :
    create_checkpointer env settings avail ps = (Checkpointer.memory, avail, ps) := by
  simp [create_checkpointer, create_async_postgres_checkpointer, h]

/-- Witness for C3's amended theorem at the concrete no-DATABASE_URL input. -/
theorem C3_memory_fallback_witness :
    create_checkpointer okCkptEnv noDbSettings none initialPoolState =
      (Checkpointer.memory, none, initialPoolState) :=
  C3_memory_fallback okCkptEnv noDbSettings none initialPoolState rfl

/-- Every data URI built by `get_base64_image` starts with "data:", hence is
never the empty string. -/
theorem dataUri_ne_empty (m b : String) :
    ("data:" ++ m ++ ";base64," ++ b) ≠ "" := by
  intro h
  have h2 : ("data:" ++ m ++ ";base64," ++ b).data = "".data := congrArg String.data h
  simp [String.data_append] at h2

/-- C6 counterexample: for an image whose caption field is present but equal
to `""`, the node appends only the image fragment — the caption text fragment
is dropped (Python truthiness: `if image_data.caption:` is false for the empty
string), so "caption fragment present iff the caption is present" fails. -/
theorem C6_empty_caption_counterexample :
    emptyCaptionImage.caption.isSome = true ∧
    (handle_image_node okImageEnv [] emptyCaptionState).1 =
      Except.ok { emptyCaptionState with messages :=
        [LMessage.human (MContent.parts
          [Fragment.imageUrl "data:image/jpeg;base64,QUJD"])] } := by
  refine ⟨by decide, by decide⟩

/-- C6 amended: for every image message whose byte retrieval succeeds,
`handle_image_node` appends exactly one new message whose content is the
caption text fragment first — present iff the caption is present AND
non-empty — followed by the base64 image fragment (always present), as one
combined entry; when retrieval fails the node raises and appends nothing. -/
theorem C6_image_append (env : ImageEnv) (fs : List String) (st : ChatState)
    (img : ChatImage) (himg : st.current_message.image = some img) :
    (env.fb.status1 = 200 → env.fb.status2 = 200 →
      (handle_image_node env fs st).1 =
        Except.ok { st with messages := st.messages ++
          [LMessage.human (MContent.parts (
            (if captionTruthy img.caption then
               [Fragment.text (img.caption.getD "")] else []) ++
            [Fragment.imageUrl
              ("data:" ++ img.mime_type ++ ";base64," ++
                env.b64encode env.fb.fileBytes)]))] }) ∧
    (¬(env.fb.status1 = 200 ∧ env.fb.status2 = 200) →
      ∃ e, (handle_image_node env fs st).1 = Except.error e) := by
  constructor
  · intro h1 h2
    simp [handle_image_node, himg, get_base64_image, download_file_from_facebook,
      h1, h2, dataUri_ne_empty]
  · intro h
    by_cases h1 : env.fb.status1 = 200
    · have h2 : ¬ env.fb.status2 = 200 := fun hh => h ⟨h1, hh⟩
      simp [handle_image_node, himg, get_base64_image, download_file_from_facebook,
        h1, h2]
    · simp [handle_image_node, himg, get_base64_image, download_file_from_facebook, h1]

/-- Witness for C6's amended theorem: the chair image with its non-empty
caption yields the caption fragment first, then the image fragment, in one
combined appended message. -/
theorem C6_image_append_witness :
    (handle_image_node okImageEnv [] chairState).1 =
      Except.ok { chairState with messages :=
        [LMessage.human (MContent.parts
          [Fragment.text "Look at this chair",
           Fragment.imageUrl "data:image/jpeg;base64,QUJD"])] } :=
  ((C6_image_append okImageEnv [] chairState chairImage rfl).1 rfl rfl).trans (by decide)

/-- C4 (code_bug evidence): in the app workflow the generator node
`chat_processor_node` (app/ai/nodes/chat_processor_node.py) has its entire
body commented out and returns `None`, so LangGraph applies no update. A
successful full run over a text message therefore persists exactly ONE new
message — the appended human message — and NO assistant reply: the history
grows by `previous_length + 1`, not the claimed `previous_length + 2`. At the
§8 scenario input (sender "15550001", body "Hello", empty prior history) the
run completes successfully with persisted history `[human "Hello"]`. -/
theorem C4_no_assistant_message :
    (run_chat_workflow sampleWorkflowEnv []
        { messages := [], current_message := sampleTextMessage, answer := "" }).result =
      Except.ok { messages := [LMessage.human (MContent.str "Hello")],
                  current_message := sampleTextMessage, answer := "" } ∧
    (run_chat_workflow sampleWorkflowEnv []
        { messages := [], current_message := sampleTextMessage, answer := "" }).persisted =
      [LMessage.human (MContent.str "Hello")] ∧
    (run_chat_workflow sampleWorkflowEnv []
        { messages := [], current_message := sampleTextMessage, answer := "" }).persisted.length =
      0 + 1 ∧
    (run_chat_workflow sampleWorkflowEnv []
        { messages := [], current_message := sampleTextMessage, answer := "" }).persisted.length ≠
      0 + 2 := by
  refine ⟨by decide, by decide, by decide, by decide⟩

/-- C5: the router returns the raw message-type tag; for the tags "text",
"image", "audio" the matching handler node is the one that runs right after
"start"; for every other tag the run fails at the conditional edge
(UnsupportedMessageType) with only the identity "start" node executed — no
handler, generator, or dispatcher node runs — and the persisted history is
unchanged from before the run. -/
theorem C5_router_dispatch (env : WorkflowEnv) (fs : List String) (st : ChatState) :
    route_by_message_type st = st.current_message.type ∧
    (st.current_message.type = "text" →
      (run_chat_workflow env fs st).trace.get? 1 = some "handle_text") ∧
    (st.current_message.type = "image" →
      (run_chat_workflow env fs st).trace.get? 1 = some "handle_image") ∧
    (st.current_message.type = "audio" →
      (run_chat_workflow env fs st).trace.get? 1 = some "handle_audio") ∧
    (st.current_message.type ≠ "text" → st.current_message.type ≠ "image" →
      st.current_message.type ≠ "audio" →
      (run_chat_workflow env fs st).result = Except.error "UnsupportedMessageType" ∧
      (run_chat_workflow env fs st).trace = ["start"] ∧
      (run_chat_workflow env fs st).persisted = st.messages) := by
  refine ⟨rfl, ?_, ?_, ?_, ?_⟩
  · intro h
    rcases hs : handle_text_node st with e | st1 <;>
      simp [run_chat_workflow, conditionalEdgeMap, route_by_message_type, h, hs,
        handlerName] <;>
      rcases send_whatsapp_message_node env.send (chat_processor_node_app st1) with
        e2 | st3 <;> simp
  · intro h
    rcases hs : handle_image_node env.image fs st with ⟨r, fs1⟩
    rcases r with e | st1 <;>
      simp [run_chat_workflow, conditionalEdgeMap, route_by_message_type, h, hs,
        handlerName] <;>
      rcases send_whatsapp_message_node env.send (chat_processor_node_app st1) with
        e2 | st3 <;> simp
  · intro h
    rcases hs : handle_audio_node env.audio fs st with ⟨r, fs1⟩
    rcases r with e | st1 <;>
      simp [run_chat_workflow, conditionalEdgeMap, route_by_message_type, h, hs,
        handlerName] <;>
      rcases send_whatsapp_message_node env.send (chat_processor_node_app st1) with
        e2 | st3 <;> simp
  · intro h1 h2 h3
    refine ⟨?_, ?_, ?_⟩ <;>
      simp [run_chat_workflow, conditionalEdgeMap, route_by_message_type, h1, h2, h3]

/-- Witness for C5 at the §8 scenario inputs: the "video" tag fails the run at
the router with the prior history untouched, and the "text" tag dispatches to
the text handler. -/
theorem C5_router_dispatch_witness :
    ((run_chat_workflow sampleWorkflowEnv []
        { messages := [LMessage.human (MContent.str "old")],
          current_message := sampleVideoMessage, answer := "" }).result =
      Except.error "UnsupportedMessageType" ∧
     (run_chat_workflow sampleWorkflowEnv []
        { messages := [LMessage.human (MContent.str "old")],
          current_message := sampleVideoMessage, answer := "" }).trace = ["start"] ∧
     (run_chat_workflow sampleWorkflowEnv []
        { messages := [LMessage.human (MContent.str "old")],
          current_message := sampleVideoMessage, answer := "" }).persisted =
      [LMessage.human (MContent.str "old")]) ∧
    (run_chat_workflow sampleWorkflowEnv []
        { messages := [], current_message := sampleTextMessage, answer := "" }).trace.get? 1 =
      some "handle_text" := by
  constructor
  · exact (C5_router_dispatch sampleWorkflowEnv []
      { messages := [LMessage.human (MContent.str "old")],
        current_message := sampleVideoMessage, answer := "" }).2.2.2.2
      (by decide) (by decide) (by decide)
  · exact (C5_router_dispatch sampleWorkflowEnv []
      { messages := [], current_message := sampleTextMessage, answer := "" }).2.1 rfl

/-- A sample durable-mode settings value. -/
def dbSettings : Settings :=
  { DATABASE_URL := some "postgresql://user:pw@host:5432/db", MAX_MESSAGES_IN_CONTEXT := 10 }

/-- A sample checkpoint database mixing rows of thread keys "t1" and "t2". -/
def sampleDb : CheckpointDB :=
  { checkpoint_writes := [("t1", 1), ("t2", 2)],
    checkpoint_blobs := [("t1", 3), ("t2", 4), ("t1", 5)],
    checkpoints := [("t2", 6), ("t1", 7)] }

/-- C8: in durable mode (DATABASE_URL set, no connection failure),
`delete_postgres_checkpointer k` removes exactly the rows with
`thread_id = k` from each of the three tables — each table becomes its filter
by `thread_id ≠ k`, so no `k`-row remains and every other thread's rows are
kept in place; when `DATABASE_URL` is absent the call is a no-op; and any
exception during the deletes is caught (the database is returned as it was) —
the function is total, so nothing is ever raised to the caller. -/
theorem C8_delete_thread (settings : Settings) (connection_fails : Bool)
    (db : CheckpointDB) (k : String) :
    (dbUrlTruthy settings.DATABASE_URL = true → connection_fails = false →
      (delete_postgres_checkpointer settings connection_fails db k =
        { checkpoint_writes := db.checkpoint_writes.filter (fun r => r.1 != k),
          checkpoint_blobs := db.checkpoint_blobs.filter (fun r => r.1 != k),
          checkpoints := db.checkpoints.filter (fun r => r.1 != k) } ∧
       (∀ r ∈ (delete_postgres_checkpointer settings connection_fails db k).checkpoint_writes,
          r.1 ≠ k) ∧
       (∀ r ∈ (delete_postgres_checkpointer settings connection_fails db k).checkpoint_blobs,
          r.1 ≠ k) ∧
       (∀ r ∈ (delete_postgres_checkpointer settings connection_fails db k).checkpoints,
          r.1 ≠ k) ∧
       (∀ r ∈ db.checkpoint_writes, r.1 ≠ k →
          r ∈ (delete_postgres_checkpointer settings connection_fails db k).checkpoint_writes) ∧
       (∀ r ∈ db.checkpoint_blobs, r.1 ≠ k →
          r ∈ (delete_postgres_checkpointer settings connection_fails db k).checkpoint_blobs) ∧
       (∀ r ∈ db.checkpoints, r.1 ≠ k →
          r ∈ (delete_postgres_checkpointer settings connection_fails db k).checkpoints))) ∧
    (dbUrlTruthy settings.DATABASE_URL = false →
      delete_postgres_checkpointer settings connection_fails db k = db) ∧
    (connection_fails = true →
      delete_postgres_checkpointer settings connection_fails db k = db) := by
  refine ⟨?_, ?_, ?_⟩
  · intro hurl hcf
    have hd : delete_postgres_checkpointer settings connection_fails db k =
        delete_thread_rows db k := by
      simp [delete_postgres_checkpointer, hurl, hcf]
    refine ⟨by simp [hd, delete_thread_rows], ?_, ?_, ?_, ?_, ?_, ?_⟩ <;>
      simp [hd, delete_thread_rows, List.mem_filter] <;> tauto
  · intro hurl
    simp [delete_postgres_checkpointer, hurl]
  · intro hcf
    cases hb : dbUrlTruthy settings.DATABASE_URL <;>
      simp [delete_postgres_checkpointer, hb, hcf]

/-- Witness for C8 at a concrete database: deleting thread "t1" leaves exactly
the "t2" rows in all three tables. -/
theorem C8_delete_thread_witness :
    delete_postgres_checkpointer dbSettings false sampleDb "t1" =
      { checkpoint_writes := [("t2", 2)],
        checkpoint_blobs := [("t2", 4)],
        checkpoints := [("t2", 6)] } :=
  ((C8_delete_thread dbSettings false sampleDb "t1").1 rfl rfl).1.trans (by decide)

/-- Every further call after the pool has been memoized returns the same
instance and leaves the module state untouched. -/
theorem run_pool_calls_memoized (n p : Nat) (s : PoolState)
    (h : s.shared_async_pool = some p) :
    run_pool_calls n s = (List.replicate n p, s) := by
  induction n with
  | zero => simp [run_pool_calls]
  | succ m ih => simp [run_pool_calls, get_shared_async_pool, h, ih, List.replicate]

/-- C9: across any sequence of `n ≥ 1` calls to `get_shared_async_pool()`
starting from the module-import state (no intervening reset), exactly one
pool is ever constructed and opened — the first call creates and opens it —
and every call (the first included) returns that same instance. -/
theorem C9_pool_singleton (n : Nat) (h : 1 ≤ n) :
    (run_pool_calls n initialPoolState).1 = List.replicate n 0 ∧
    (run_pool_calls n initialPoolState).2.constructed = 1 ∧
    (run_pool_calls n initialPoolState).2.opened = 1 ∧
    (run_pool_calls n initialPoolState).2.shared_async_pool = some 0 := by
  obtain ⟨m, rfl⟩ : ∃ m, n = m + 1 :=
    ⟨n - 1, (Nat.succ_pred_eq_of_pos h).symm⟩
  have hrest := run_pool_calls_memoized m 0
    { shared_async_pool := some 0, constructed := 1, opened := 1 } rfl
  refine ⟨?_, ?_, ?_, ?_⟩ <;>
    simp [run_pool_calls, get_shared_async_pool, initialPoolState, hrest, List.replicate]

/-- Witness for C9: three sequential calls construct and open one pool and all
return instance 0. -/
theorem C9_pool_singleton_witness :
    (run_pool_calls 3 initialPoolState).1 = List.replicate 3 0 ∧
    (run_pool_calls 3 initialPoolState).2.constructed = 1 ∧
    (run_pool_calls 3 initialPoolState).2.opened = 1 ∧
    (run_pool_calls 3 initialPoolState).2.shared_async_pool = some 0 :=
  C9_pool_singleton 3 (by decide)

end Orbit
